import Mathlib

/-!
Verification development for the Mobile_guard APK triage tool.

Shallow embedding of the risk-assessment and report-composition pipeline:
* `src/report_compose.py`, class `ReportComposer`
  (`_extract_dangerous_permissions`, `_calculate_suspicious_score`,
   `_assess_security`, `_generate_warnings`, `_generate_recommendations`,
   `compose_report`, `save_report`, `_save_html`).
* `src/interface.py`, method `APKAnalyzerApp.determine_maliciousness`.

Python dictionaries with optional keys are modelled as structures with
`Option` fields read through `Option.getD` (mirroring `dict.get(key, default)`).
Python float arithmetic on half-integer scores is modelled exactly with `ℚ`
(all intermediate values are multiples of 1/2, hence exactly representable).
`strToLower` (ASCII case folding) models Python `str.lower()`; all rule
table entries and the inputs considered here are ASCII.  Flet colour constants
are modelled as the strings "RED", "ORANGE", "GREEN".  The wall-clock values
(`datetime.now()`) are passed in as explicit string parameters.
-/

namespace MobileGuard

/-- The Python contiguous-substring membership test `needle in hay`, on
character lists. -/
def containsSubList (needle : List Char) : List Char → Bool
  | [] => needle.isEmpty
  | c :: rest => needle.isPrefixOf (c :: rest) || containsSubList needle rest

/-- The Python membership test `needle in hay` on strings:
`strContains hay needle`. -/
def strContains (hay needle : String) : Bool :=
  containsSubList needle.data hay.data

/-- Model of Python `str.lower()` (ASCII case folding, applied
character-wise); all rule-table entries and names considered are ASCII. -/
def strToLower (s : String) : String :=
  ⟨s.data.map Char.toLower⟩

/-- Table `ReportComposer.suspicious_keywords` (report_compose.py lines 28-32). -/
def suspicious_keywords : List String :=
  ["hack", "crack", "mod", "premium", "free", "cheat",
   "virus", "trojan", "malware", "spyware", "keylogger",
   "bot", "exploit", "root", "jailbreak", "adware", "ransomware"]

/-- Table `ReportComposer.dangerous_permissions` (report_compose.py lines 35-39). -/
def dangerous_permissions : List String :=
  ["READ_SMS", "SEND_SMS", "RECEIVE_SMS", "READ_CONTACTS",
   "WRITE_CONTACTS", "ACCESS_FINE_LOCATION", "ACCESS_COARSE_LOCATION",
   "RECORD_AUDIO", "CAMERA", "READ_CALL_LOG", "WRITE_CALL_LOG"]

/-- The `apk_info` dictionary: its keys may be absent (`dict.get` defaults). -/
structure ApkInfo where
  name : Option String := none
  path : Option String := none
  size : Option Int := none
  last_modified : Option String := none
deriving Repr, DecidableEq

/-- The `analysis_data` dictionary (androguard output): `Permissions` is a
list of strings, `Intents` a dictionary modelled as an association list. -/
structure AnalysisData where
  permissions : Option (List String) := none
  intents : Option (List (String × String)) := none
deriving Repr, DecidableEq

/-- Inner loop of `_extract_dangerous_permissions` (lines 92-95): a
permission is appended (and the loop breaks) when some table entry is a
case-insensitive substring of it. -/
def isDangerousPerm (perm : String) : Bool :=
  dangerous_permissions.any (fun danger_perm =>
    strContains (strToLower perm) (strToLower danger_perm))

/-- Embeds `ReportComposer._extract_dangerous_permissions` (lines 88-96): append
each permission matching the table; `break` after the first matching table
entry, so each list element is appended at most once per occurrence. -/
def extractDangerousPermissions : List String → List String
  | [] => []
  | perm :: rest =>
      if isDangerousPerm perm then
        perm :: extractDangerousPermissions rest
      else
        extractDangerousPermissions rest

/-- Keyword-counting loop of `_calculate_suspicious_score` (lines 103-106):
`score += 1` for every suspicious keyword in the lower-cased name. -/
def keywordHits (apk_name_lower : String) : Nat :=
  suspicious_keywords.countP (fun keyword => strContains apk_name_lower keyword)

/-- Embeds `ReportComposer._calculate_suspicious_score` (lines 98-114).
`score = hits + 0.5 * len(dangerous)` over ℚ, then `min(int(score * 2), 10)`;
`int` truncates toward zero, which on the non-negative `score * 2` is `⌊·⌋`. -/
def calculateSuspiciousScore (apk_info : ApkInfo) (analysis_data : AnalysisData) : Int :=
  let apk_name_lower := strToLower (apk_info.name.getD "")
  let hits := keywordHits apk_name_lower
  let dangerous_perms := extractDangerousPermissions (analysis_data.permissions.getD [])
  let score : ℚ := (hits : ℚ) + (dangerous_perms.length : ℚ) * (1 / 2)
  min (Rat.floor (score * 2)) 10

/-- Derived closed form of the score used for concrete evaluation:
`min (2 * hits + dangerous_count) 10` over ℕ (see
`calculateSuspiciousScore_eq_nat`). -/
def calculateSuspiciousScoreNat (apk_info : ApkInfo) (analysis_data : AnalysisData) : Nat :=
  min (2 * keywordHits (strToLower (apk_info.name.getD "")) +
    (extractDangerousPermissions (analysis_data.permissions.getD [])).length) 10

/-- Lemma: `Rat.floor` is the floor of the `FloorRing ℚ` instance. -/
theorem ratFloor_eq_intFloor (q : ℚ) : Rat.floor q = ⌊q⌋ := by
  rw [Rat.floor_def', Rat.floor_def]

/-- The half-integer float arithmetic of `_calculate_suspicious_score`
collapses to pure ℕ arithmetic: the score is `min (2 * hits + dangerous) 10`. -/
theorem calculateSuspiciousScore_eq_nat (apk_info : ApkInfo) (analysis_data : AnalysisData) :
    calculateSuspiciousScore apk_info analysis_data =
      (calculateSuspiciousScoreNat apk_info analysis_data : Int) := by
  have key : ∀ h d : ℕ, (((h : ℚ) + (d : ℚ) * (1 / 2)) * 2) = ((2 * h + d : ℕ) : ℚ) := by
    intro h d
    push_cast
    ring
  simp only [calculateSuspiciousScore, calculateSuspiciousScoreNat]
  rw [key, ratFloor_eq_intFloor, Int.floor_natCast]
  push_cast
  rfl

/-- Embeds `ReportComposer._generate_warnings` (lines 141-162): the three
conditional warnings, appended in source order.  The keyword loop `break`s
at the first matching suspicious keyword, modelled by `List.find?`. -/
def generateWarnings (apk_info : ApkInfo) (analysis_data : AnalysisData) : List String :=
  let permissions := analysis_data.permissions.getD []
  let dangerous_perms := extractDangerousPermissions permissions
  let w1 : List String :=
    if dangerous_perms.isEmpty then []
    else ["Обнаружено " ++ toString dangerous_perms.length ++ " опасных разрешений"]
  let apk_name_lower := strToLower (apk_info.name.getD "")
  let w2 : List String :=
    match suspicious_keywords.find? (fun keyword => strContains apk_name_lower keyword) with
    | some keyword => ["Подозрительное ключевое слово в имени: \x27" ++ keyword ++ "\x27"]
    | none => []
  let w3 : List String :=
    if permissions.length > 20 then
      ["Большое количество разрешений: " ++ toString permissions.length]
    else []
  w1 ++ w2 ++ w3

/-- The `security_assessment` section produced by
`ReportComposer._assess_security` (lines 116-139).  The flet colour constant
is modelled as a string. -/
structure SecurityAssessment where
  risk_level : String
  risk_color : String
  suspicious_score : Int
  dangerous_permissions_count : Nat
  warnings : List String
deriving Repr, DecidableEq

/-- Embeds `ReportComposer._assess_security` (lines 116-139). -/
def assessSecurity (apk_info : ApkInfo) (analysis_data : AnalysisData) : SecurityAssessment :=
  let permissions := analysis_data.permissions.getD []
  let dangerous_perms := extractDangerousPermissions permissions
  let suspicious_score := calculateSuspiciousScore apk_info analysis_data
  let rl : String × String :=
    if suspicious_score ≥ 7 ∨ dangerous_perms.length ≥ 3 then ("высокий", "RED")
    else if suspicious_score ≥ 4 ∨ dangerous_perms.length ≥ 1 then ("средний", "ORANGE")
    else ("низкий", "GREEN")
  { risk_level := rl.1
    risk_color := rl.2
    suspicious_score := suspicious_score
    dangerous_permissions_count := dangerous_perms.length
    warnings := generateWarnings apk_info analysis_data }

/-- The `metadata` section of a report (compose_report lines 55-62);
`analysis_date` (`datetime.now().isoformat()`) is an explicit parameter. -/
structure Metadata where
  apk_name : String
  apk_path : String
  file_size : Int
  last_modified : String
  analysis_date : String
  report_version : String
deriving Repr, DecidableEq

/-- The `permissions` section of a report (compose_report lines 63-67). -/
structure PermissionsSection where
  total : Nat
  list : List String
  dangerous : List String
deriving Repr, DecidableEq

/-- The `statistics` section of a report (compose_report lines 71-76). -/
structure Statistics where
  total_permissions : Nat
  dangerous_permissions : Nat
  activities : Nat
  suspicious_score : Int
deriving Repr, DecidableEq

/-- The structured report dictionary built by `compose_report`. -/
structure Report where
  metadata : Metadata
  permissions : PermissionsSection
  intents : List (String × String)
  security_assessment : SecurityAssessment
  recommendations : List String
  statistics : Statistics
deriving Repr, DecidableEq

/-- Embeds `ReportComposer._generate_recommendations` (lines 164-184): reads only
the already-composed report (its `security_assessment` and
`permissions.list`); appends the reassuring line iff nothing else fired. -/
def generateRecommendations (report : Report) : List String :=
  let security := report.security_assessment
  let r1 : List String :=
    if security.risk_level = "высокий" then
      ["⚠️ НЕ УСТАНАВЛИВАТЬ! Файл выглядит подозрительно",
       "Проверьте APK через VirusTotal или другие антивирусы"]
    else []
  let r2 : List String :=
    if security.dangerous_permissions_count > 0 then
      ["Внимание! Приложение запрашивает " ++
         toString security.dangerous_permissions_count ++ " опасных разрешений",
       "Подумайте, действительно ли приложению нужны эти разрешения"]
    else []
  let r3 : List String :=
    if report.permissions.list.length > 25 then
      ["Приложение запрашивает слишком много разрешений",
       "Рассмотрите альтернативные приложения с меньшим количеством разрешений"]
    else []
  let recommendations := r1 ++ r2 ++ r3
  if recommendations.isEmpty then
    ["Проверка через Angroguard не обнаружила угроз"]
  else recommendations

/-- Embeds `ReportComposer.compose_report` (lines 41-86): builds the full report,
then fills in the recommendations from it.  With typed inputs every
operation of the body is total, so the `except` branch returning `{}`
(lines 84-86) is unreachable and the embedding returns a `Report` directly. -/
def composeReport (apk_info : ApkInfo) (analysis_data : AnalysisData)
    (analysis_date : String) : Report :=
  let perms := analysis_data.permissions.getD []
  let base : Report :=
    { metadata :=
        { apk_name := apk_info.name.getD "Unknown"
          apk_path := apk_info.path.getD ""
          file_size := apk_info.size.getD 0
          last_modified := apk_info.last_modified.getD ""
          analysis_date := analysis_date
          report_version := "1.0" }
      permissions :=
        { total := perms.length
          list := perms
          dangerous := extractDangerousPermissions perms }
      intents := analysis_data.intents.getD []
      security_assessment := assessSecurity apk_info analysis_data
      recommendations := []
      statistics :=
        { total_permissions := perms.length
          dangerous_permissions := (extractDangerousPermissions perms).length
          activities := (analysis_data.intents.getD []).length
          suspicious_score := calculateSuspiciousScore apk_info analysis_data } }
  { base with recommendations := generateRecommendations base }

/-- Dynamically-typed Python value for the `name` entry of `apk_info`: the
only `apk_info` value on which `compose_report` ever calls a method
(`.lower()`, report_compose.py lines 103 and 152); a non-string there makes
that call raise `AttributeError`.  The other `apk_info` values are only
stored verbatim, never operated on, so they stay typed.  Two constructors
suffice to distinguish string from non-string. -/
inductive PyVal where
  | str (s : String)
  | int (n : Int)
deriving Repr, DecidableEq

/-- Python `v.lower()`: succeeds on strings, raises `AttributeError` on
non-strings. -/
def pyLower : PyVal → Except String String
  | .str s => .ok (strToLower s)
  | .int _ => .error "AttributeError"

/-- The `apk_info` dictionary with its `name` entry dynamically typed. -/
structure ApkInfoDyn where
  name : Option PyVal := none
  path : Option String := none
  size : Option Int := none
  last_modified : Option String := none
deriving Repr, DecidableEq

/-- View of a typed `apk_info` as a dynamic one: its `name`, when present,
is a string. -/
def ApkInfoDyn.ofTyped (a : ApkInfo) : ApkInfoDyn :=
  { name := a.name.map PyVal.str
    path := a.path
    size := a.size
    last_modified := a.last_modified }

/-- Embeds `_calculate_suspicious_score` (lines 98-114) on a dynamic
`apk_info`: `apk_info.get('name', '').lower()` (line 103) can raise. -/
def calculateSuspiciousScoreDyn (apk_info : ApkInfoDyn) (analysis_data : AnalysisData) :
    Except String Int :=
  match pyLower (apk_info.name.getD (PyVal.str "")) with
  | .error e => .error e
  | .ok apk_name_lower =>
      let hits := keywordHits apk_name_lower
      let dangerous_perms := extractDangerousPermissions (analysis_data.permissions.getD [])
      let score : ℚ := (hits : ℚ) + (dangerous_perms.length : ℚ) * (1 / 2)
      .ok (min (Rat.floor (score * 2)) 10)

/-- Embeds `_generate_warnings` (lines 141-162) on a dynamic `apk_info`:
the keyword check lowers the name (line 152) and can raise. -/
def generateWarningsDyn (apk_info : ApkInfoDyn) (analysis_data : AnalysisData) :
    Except String (List String) :=
  let permissions := analysis_data.permissions.getD []
  let dangerous_perms := extractDangerousPermissions permissions
  let w1 : List String :=
    if dangerous_perms.isEmpty then []
    else ["Обнаружено " ++ toString dangerous_perms.length ++ " опасных разрешений"]
  match pyLower (apk_info.name.getD (PyVal.str "")) with
  | .error e => .error e
  | .ok apk_name_lower =>
      let w2 : List String :=
        match suspicious_keywords.find? (fun keyword => strContains apk_name_lower keyword) with
        | some keyword =>
            ["Подозрительное ключевое слово в имени: \x27" ++ keyword ++ "\x27"]
        | none => []
      let w3 : List String :=
        if permissions.length > 20 then
          ["Большое количество разрешений: " ++ toString permissions.length]
        else []
      .ok (w1 ++ w2 ++ w3)

/-- Embeds `_assess_security` (lines 116-139) on a dynamic `apk_info`:
propagates the `AttributeError` of the score and warning computations. -/
def assessSecurityDyn (apk_info : ApkInfoDyn) (analysis_data : AnalysisData) :
    Except String SecurityAssessment :=
  let permissions := analysis_data.permissions.getD []
  let dangerous_perms := extractDangerousPermissions permissions
  match calculateSuspiciousScoreDyn apk_info analysis_data with
  | .error e => .error e
  | .ok suspicious_score =>
      match generateWarningsDyn apk_info analysis_data with
      | .error e => .error e
      | .ok warnings =>
          let rl : String × String :=
            if suspicious_score ≥ 7 ∨ dangerous_perms.length ≥ 3 then ("высокий", "RED")
            else if suspicious_score ≥ 4 ∨ dangerous_perms.length ≥ 1 then
              ("средний", "ORANGE")
            else ("низкий", "GREEN")
          .ok { risk_level := rl.1
                risk_color := rl.2
                suspicious_score := suspicious_score
                dangerous_permissions_count := dangerous_perms.length
                warnings := warnings }

/-- Embeds `compose_report` (lines 41-86) on a dynamic `apk_info`: an
`AttributeError` raised while the report dictionary is being built reaches
the `except` (lines 84-86) and the empty sentinel `{}` — modelled as
`none` — is returned; otherwise the fully-populated report is built as in
`composeReport`.  In the `.ok` branches the name is absent or a string
(a non-string name always raises first), so the `.int` arm of the metadata
name below is dead; its value is irrelevant to every theorem. -/
def composeReportDyn (apk_info : ApkInfoDyn) (analysis_data : AnalysisData)
    (analysis_date : String) : Option Report :=
  let perms := analysis_data.permissions.getD []
  match assessSecurityDyn apk_info analysis_data with
  | .error _ => none
  | .ok sec =>
      match calculateSuspiciousScoreDyn apk_info analysis_data with
      | .error _ => none
      | .ok score =>
          let apk_name : String :=
            match apk_info.name with
            | none => "Unknown"
            | some (.str s) => s
            | some (.int n) => toString n
          let base : Report :=
            { metadata :=
                { apk_name := apk_name
                  apk_path := apk_info.path.getD ""
                  file_size := apk_info.size.getD 0
                  last_modified := apk_info.last_modified.getD ""
                  analysis_date := analysis_date
                  report_version := "1.0" }
              permissions :=
                { total := perms.length
                  list := perms
                  dangerous := extractDangerousPermissions perms }
              intents := analysis_data.intents.getD []
              security_assessment := sec
              recommendations := []
              statistics :=
                { total_permissions := perms.length
                  dangerous_permissions := (extractDangerousPermissions perms).length
                  activities := (analysis_data.intents.getD []).length
                  suspicious_score := score } }
          some { base with recommendations := generateRecommendations base }

/-- Table `ReportComposer.supported_formats` (line 25). -/
def supported_formats : List String := ["json", "csv", "txt", "html"]

/-- Python dictionary assignment `d[k] = v`: replaces the value in place if
the key exists, otherwise appends at the end (insertion order preserved). -/
def dictInsert : List (String × String) → String → String → List (String × String)
  | [], k, v => [(k, v)]
  | (k1, v1) :: rest, k, v =>
      if k1 = k then (k, v) :: rest else (k1, v1) :: dictInsert rest k v

/-- The format loop of `save_report` (lines 207-233): unsupported formats
are skipped (`continue`); each supported format writes
`reports_dir/{base_filename}.{fmt}` and records it in `saved_files`.  The
four serializers are total on typed reports, so the per-format `except`
branch never fires in the embedding. -/
def saveReportLoop (reports_dir base_filename : String) :
    List String → List (String × String) → List (String × String)
  | [], saved_files => saved_files
  | fmt :: rest, saved_files =>
      if fmt ∈ supported_formats then
        saveReportLoop reports_dir base_filename rest
          (dictInsert saved_files fmt (reports_dir ++ "/" ++ base_filename ++ "." ++ fmt))
      else
        saveReportLoop reports_dir base_filename rest saved_files

/-- Embeds `ReportComposer.save_report` (lines 186-234).  The timestamp
(`datetime.now().strftime("%Y%m%d_%H%M%S")`, second resolution) is computed
once before the loop and passed here as a parameter, so it is shared by all
formats of one call; `formats = none` models the Python default `None`. -/
def saveReport (reports_dir : String) (_report : Report) (apk_name : String)
    (formats : Option (List String)) (timestamp : String) : List (String × String) :=
  let fmts := formats.getD ["json", "txt"]
  let base_filename := apk_name ++ "_" ++ timestamp
  saveReportLoop reports_dir base_filename fmts []

/-- The per-permission dangerous test of `_save_html` (lines 394-395):
recomputed from the `dangerous_permissions` table, not read from the
report's `permissions.dangerous` field. -/
def htmlIsDangerous (perm : String) : Bool :=
  dangerous_permissions.any (fun danger_perm =>
    strContains (strToLower perm) (strToLower danger_perm))

/-- One `<li>` line of the permissions section of `_save_html`
(lines 396-397). -/
def htmlPermItem (perm : String) : String :=
  let danger_class := if htmlIsDangerous perm then "dangerous" else ""
  "<li class=\"" ++ danger_class ++ "\">" ++ perm ++ "</li>\n"

/-- The permissions section emitted by `_save_html` (loop of lines 393-397):
one list item per entry of `permissions.list`. -/
def htmlPermItems (report : Report) : List String :=
  report.permissions.list.map htmlPermItem

/-- The set of permissions the hypertext serializer marks with the
`dangerous` visual class: those entries of `permissions.list` whose
re-derived `htmlIsDangerous` test fires. -/
def htmlMarkedDangerous (report : Report) : List String :=
  report.permissions.list.filter htmlIsDangerous

/-- Table `APKAnalyzerApp.SUSPICIOUS_WORDS` (interface.py lines 55-59). -/
def SUSPICIOUS_WORDS : List String :=
  ["hack", "crack", "mod", "premium", "free", "cheat",
   "virus", "trojan", "malware", "spyware", "keylogger",
   "bot", "exploit", "root", "jailbreak", "adware", "ransomware"]

/-- Table `APKAnalyzerApp.DANGEROUS_PERMISSIONS` (interface.py lines 62-66). -/
def DANGEROUS_PERMISSIONS : List String :=
  ["READ_SMS", "SEND_SMS", "RECEIVE_SMS", "READ_CONTACTS",
   "WRITE_CONTACTS", "ACCESS_FINE_LOCATION", "ACCESS_COARSE_LOCATION",
   "RECORD_AUDIO", "CAMERA", "READ_CALL_LOG", "WRITE_CALL_LOG"]

/-- The keyword tally of `APKAnalyzerApp.determine_maliciousness`
(interface.py lines 107-109): one per suspicious word occurring in the
lower-cased name. -/
def quickWordHits (apk_name : String) : Nat :=
  SUSPICIOUS_WORDS.countP (fun word => strContains (strToLower apk_name) word)

/-- The dangerous-permission tally of `determine_maliciousness`
(interface.py lines 112-116): one per table entry contained
(case-insensitively) in at least one permission; the Python truthiness test
`if permissions:` skips both `None` and the empty list. -/
def quickDangerousCount : Option (List String) → Nat
  | none => 0
  | some ps =>
      if ps.isEmpty then 0
      else DANGEROUS_PERMISSIONS.countP (fun perm =>
        ps.any (fun p => strContains (strToLower p) (strToLower perm)))

/-- Embeds `APKAnalyzerApp.determine_maliciousness` (interface.py lines
100-141): the presentation-level quick tier, thresholding the accumulated
`suspicious_count` at 2 and 1.  Returns `(risk_level, colour)`. -/
def determineMaliciousness (apk_name : String) (permissions : Option (List String)) :
    String × String :=
  let suspicious_count : ℚ :=
    (quickWordHits apk_name : ℚ) + (quickDangerousCount permissions : ℚ) * (1 / 2)
  if suspicious_count ≥ 2 then ("высокая", "RED")
  else if suspicious_count ≥ 1 then ("средняя", "ORANGE")
  else ("низкая", "GREEN")

/-! ### Basic lemmas about the embedded operations -/

/-- The extraction loop is exactly a filter by the dangerous test. -/
theorem extractDangerousPermissions_eq_filter (l : List String) :
    extractDangerousPermissions l = l.filter isDangerousPerm := by
  induction l with
  | nil => rfl
  | cons perm rest ih =>
      simp only [extractDangerousPermissions, List.filter_cons]
      by_cases h : isDangerousPerm perm <;> simp [h, ih]

/-- The dangerous permissions are an order-preserving subsequence of the
input list. -/
theorem extractDangerousPermissions_sublist (l : List String) :
    (extractDangerousPermissions l).Sublist l := by
  rw [extractDangerousPermissions_eq_filter]
  exact List.filter_sublist l

/-- The risk-level branch of `_assess_security`, restated over the ℕ form
of the score for concrete evaluation. -/
theorem assessSecurity_risk_level_nat (apk_info : ApkInfo) (analysis_data : AnalysisData) :
    (assessSecurity apk_info analysis_data).risk_level =
      (if 7 ≤ calculateSuspiciousScoreNat apk_info analysis_data ∨
          3 ≤ (extractDangerousPermissions (analysis_data.permissions.getD [])).length then
        "высокий"
       else if 4 ≤ calculateSuspiciousScoreNat apk_info analysis_data ∨
          1 ≤ (extractDangerousPermissions (analysis_data.permissions.getD [])).length then
        "средний"
       else "низкий") := by
  simp only [assessSecurity, calculateSuspiciousScore_eq_nat, ge_iff_le]
  norm_cast
  split_ifs <;> rfl

/-! ### Claim theorems -/

/-- C1: for every `apk_info` and `analysis_data`, the composed risk level is
"высокий" iff `score ≥ 7 ∨ dangerous_count ≥ 3`, "средний" iff that fails
and `score ≥ 4 ∨ dangerous_count ≥ 1`, and "низкий" otherwise; in
particular "CleanApp.apk" with permissions READ_SMS and CAMERA is rated
"средний" although its score is only 2 (the `dangerous_count ≥ 1` disjunct
fires). -/
theorem claim_C1_risk_tier (apk_info : ApkInfo) (analysis_data : AnalysisData) :
    (((assessSecurity apk_info analysis_data).risk_level = "высокий" ↔
        calculateSuspiciousScore apk_info analysis_data ≥ 7 ∨
          (extractDangerousPermissions (analysis_data.permissions.getD [])).length ≥ 3) ∧
      ((assessSecurity apk_info analysis_data).risk_level = "средний" ↔
        ¬(calculateSuspiciousScore apk_info analysis_data ≥ 7 ∨
            (extractDangerousPermissions (analysis_data.permissions.getD [])).length ≥ 3) ∧
          (calculateSuspiciousScore apk_info analysis_data ≥ 4 ∨
            (extractDangerousPermissions (analysis_data.permissions.getD [])).length ≥ 1)) ∧
      ((assessSecurity apk_info analysis_data).risk_level = "низкий" ↔
        ¬(calculateSuspiciousScore apk_info analysis_data ≥ 7 ∨
            (extractDangerousPermissions (analysis_data.permissions.getD [])).length ≥ 3) ∧
          ¬(calculateSuspiciousScore apk_info analysis_data ≥ 4 ∨
            (extractDangerousPermissions (analysis_data.permissions.getD [])).length ≥ 1))) ∧
    (assessSecurity ⟨some "CleanApp.apk", none, none, none⟩
        ⟨some ["android.permission.READ_SMS", "android.permission.CAMERA"], none⟩).risk_level =
      "средний" ∧
    calculateSuspiciousScore ⟨some "CleanApp.apk", none, none, none⟩
        ⟨some ["android.permission.READ_SMS", "android.permission.CAMERA"], none⟩ = 2 := by
  refine ⟨?_, ?_, ?_⟩
  · simp only [assessSecurity]
    split_ifs with h1 h2
    · exact ⟨iff_of_true rfl h1,
        iff_of_false (by decide) (fun hc => hc.1 h1),
        iff_of_false (by decide) (fun hc => hc.1 h1)⟩
    · exact ⟨iff_of_false (by decide) h1,
        iff_of_true rfl ⟨h1, h2⟩,
        iff_of_false (by decide) (fun hc => hc.2 h2)⟩
    · exact ⟨iff_of_false (by decide) h1,
        iff_of_false (by decide) (fun hc => h2 hc.2),
        iff_of_true rfl ⟨h1, h2⟩⟩
  · rw [assessSecurity_risk_level_nat]
    decide
  · rw [calculateSuspiciousScore_eq_nat]
    decide

/-- C2: for every inputs the suspicious score equals
`min ⌊(keyword_hits + dangerous_count * 0.5) * 2⌋ 10`, hence is an integer
in [0, 10]; in particular "FreePremiumHack.apk" with no permissions scores
6 (keywords "hack", "premium", "free"). -/
theorem claim_C2_suspicious_score (apk_info : ApkInfo) (analysis_data : AnalysisData) :
    (calculateSuspiciousScore apk_info analysis_data =
      min ⌊((keywordHits (strToLower (apk_info.name.getD "")) : ℚ) +
        ((extractDangerousPermissions (analysis_data.permissions.getD [])).length : ℚ) *
          (1 / 2)) * 2⌋ 10) ∧
    0 ≤ calculateSuspiciousScore apk_info analysis_data ∧
    calculateSuspiciousScore apk_info analysis_data ≤ 10 ∧
    calculateSuspiciousScore ⟨some "FreePremiumHack.apk", none, none, none⟩
      ⟨some [], none⟩ = 6 := by
  refine ⟨?_, ?_, ?_, ?_⟩
  · simp only [calculateSuspiciousScore]
    rw [ratFloor_eq_intFloor]
  · rw [calculateSuspiciousScore_eq_nat]
    exact Int.ofNat_nonneg _
  · rw [calculateSuspiciousScore_eq_nat]
    simp only [calculateSuspiciousScoreNat]
    exact_mod_cast min_le_right _ 10
  · rw [calculateSuspiciousScore_eq_nat]
    decide

/-- C3 counterexample: on the duplicate input
`["android.permission.CAMERA", "android.permission.CAMERA"]` the extraction
returns the permission twice, contradicting the claim that no permission
appears twice in the output. -/
theorem claim_C3_counterexample :
    extractDangerousPermissions
        ["android.permission.CAMERA", "android.permission.CAMERA"] =
      ["android.permission.CAMERA", "android.permission.CAMERA"] ∧
    ¬ (extractDangerousPermissions
        ["android.permission.CAMERA", "android.permission.CAMERA"]).Nodup := by
  constructor
  · decide
  · decide

/-- C3 (amended): extraction returns exactly the input entries that
case-insensitively contain a `dangerous_permissions` entry (it is the filter
of the input by the dangerous test), each input occurrence contributing at
most one output occurrence: the output is an order-preserving subsequence
and no permission appears in the output more often than in the input. -/
theorem claim_C3_extract_filter (l : List String) :
    extractDangerousPermissions l = l.filter isDangerousPerm ∧
    (extractDangerousPermissions l).Sublist l ∧
    ∀ p : String, (extractDangerousPermissions l).count p ≤ l.count p := by
  refine ⟨extractDangerousPermissions_eq_filter l,
    extractDangerousPermissions_sublist l, fun p => ?_⟩
  exact (extractDangerousPermissions_sublist l).count_le p

/-- Recommendations are never empty: if no rule fires, the reassuring line
is appended. -/
theorem generateRecommendations_ne_nil (report : Report) :
    generateRecommendations report ≠ [] := by
  simp only [generateRecommendations]
  split_ifs <;> simp_all

/-- C4: every composed report keeps its denormalized counts consistent:
`statistics.total_permissions = permissions.total = permissions.list.length`,
`statistics.dangerous_permissions = permissions.dangerous.length =
security_assessment.dangerous_permissions_count`,
`statistics.suspicious_score = security_assessment.suspicious_score`, and
`permissions.dangerous` is an order-preserving subsequence of
`permissions.list`. -/
theorem claim_C4_report_invariants (apk_info : ApkInfo) (analysis_data : AnalysisData)
    (analysis_date : String) :
    (composeReport apk_info analysis_data analysis_date).statistics.total_permissions =
        (composeReport apk_info analysis_data analysis_date).permissions.total ∧
    (composeReport apk_info analysis_data analysis_date).permissions.total =
        (composeReport apk_info analysis_data analysis_date).permissions.list.length ∧
    (composeReport apk_info analysis_data analysis_date).statistics.dangerous_permissions =
        (composeReport apk_info analysis_data analysis_date).permissions.dangerous.length ∧
    (composeReport apk_info analysis_data analysis_date).permissions.dangerous.length =
        (composeReport apk_info analysis_data
            analysis_date).security_assessment.dangerous_permissions_count ∧
    (composeReport apk_info analysis_data analysis_date).statistics.suspicious_score =
        (composeReport apk_info analysis_data
            analysis_date).security_assessment.suspicious_score ∧
    (composeReport apk_info analysis_data analysis_date).permissions.dangerous.Sublist
        (composeReport apk_info analysis_data analysis_date).permissions.list := by
  refine ⟨rfl, rfl, rfl, rfl, rfl, ?_⟩
  exact extractDangerousPermissions_sublist _

/-- C5: warnings are the three condition-driven entries in fixed order — a
dangerous-count warning iff some dangerous permission is present, then a
warning naming only the first matching suspicious keyword, then a
permission-count warning iff more than 20 permissions — hence at most three
and at most one per condition. -/
theorem claim_C5_warnings (apk_info : ApkInfo) (analysis_data : AnalysisData) :
    generateWarnings apk_info analysis_data =
      (if 0 < (extractDangerousPermissions (analysis_data.permissions.getD [])).length then
        ["Обнаружено " ++
          toString (extractDangerousPermissions (analysis_data.permissions.getD [])).length ++
          " опасных разрешений"]
       else []) ++
      (match suspicious_keywords.find?
          (fun keyword => strContains (strToLower (apk_info.name.getD "")) keyword) with
       | some keyword => ["Подозрительное ключевое слово в имени: \x27" ++ keyword ++ "\x27"]
       | none => []) ++
      (if 20 < (analysis_data.permissions.getD []).length then
        ["Большое количество разрешений: " ++
          toString (analysis_data.permissions.getD []).length]
       else []) ∧
    (generateWarnings apk_info analysis_data).length ≤ 3 := by
  constructor
  · cases hext : extractDangerousPermissions (analysis_data.permissions.getD []) with
    | nil => simp [generateWarnings, hext]
    | cons a t => simp [generateWarnings, hext]
  · simp only [generateWarnings, List.length_append]
    have h1 : ∀ (c : Bool) (xs : List String), xs.length ≤ 1 →
        (if c then ([] : List String) else xs).length ≤ 1 := by
      intro c xs h
      cases c <;> simp [h]
    have h2 : ∀ (c : Prop) [Decidable c] (xs : List String), xs.length ≤ 1 →
        (if c then xs else ([] : List String)).length ≤ 1 := by
      intro c _ xs h
      split <;> simp [h]
    have h3 : ∀ o : Option String,
        (match o with
         | some keyword =>
            ["Подозрительное ключевое слово в имени: \x27" ++ keyword ++ "\x27"]
         | none => ([] : List String)).length ≤ 1 := by
      intro o
      cases o <;> simp
    have := h1 ((extractDangerousPermissions (analysis_data.permissions.getD [])).isEmpty)
      ["Обнаружено " ++
        toString (extractDangerousPermissions (analysis_data.permissions.getD [])).length ++
        " опасных разрешений"] (by simp)
    have := h3 (suspicious_keywords.find?
      (fun keyword => strContains (strToLower (apk_info.name.getD "")) keyword))
    have := h2 ((analysis_data.permissions.getD []).length > 20)
      ["Большое количество разрешений: " ++ toString (analysis_data.permissions.getD []).length]
      (by simp)
    omega

/-- C6: recommendations are derived only from the composed report's
`security_assessment` and `permissions.list` length, as three independent
cumulative rules in fixed order (do-not-install pair iff tier is high,
dangerous-count pair iff the assessed count is positive, excessive
permissions pair iff more than 25 entries), with exactly one reassuring
line iff no rule fired — so the list is never empty. -/
theorem claim_C6_recommendations (report : Report) :
    generateRecommendations report =
      (if report.security_assessment.risk_level = "высокий" then
        ["⚠️ НЕ УСТАНАВЛИВАТЬ! Файл выглядит подозрительно",
         "Проверьте APK через VirusTotal или другие антивирусы"]
       else []) ++
      (if 0 < report.security_assessment.dangerous_permissions_count then
        ["Внимание! Приложение запрашивает " ++
           toString report.security_assessment.dangerous_permissions_count ++
           " опасных разрешений",
         "Подумайте, действительно ли приложению нужны эти разрешения"]
       else []) ++
      (if 25 < report.permissions.list.length then
        ["Приложение запрашивает слишком много разрешений",
         "Рассмотрите альтернативные приложения с меньшим количеством разрешений"]
       else []) ++
      (if ¬ report.security_assessment.risk_level = "высокий" ∧
          ¬ 0 < report.security_assessment.dangerous_permissions_count ∧
          ¬ 25 < report.permissions.list.length then
        ["Проверка через Angroguard не обнаружила угроз"]
       else []) ∧
    generateRecommendations report ≠ [] := by
  constructor
  · by_cases hhigh : report.security_assessment.risk_level = "высокий" <;>
      by_cases hcnt : 0 < report.security_assessment.dangerous_permissions_count <;>
        by_cases hlen : 25 < report.permissions.list.length <;>
          simp [generateRecommendations, hhigh, hcnt, hlen]
  · exact generateRecommendations_ne_nil report

/-- On inputs whose name is absent or a string, the dynamic
`compose_report` takes all `.ok` branches and produces exactly the typed
report, never the `{}` sentinel. -/
theorem composeReportDyn_ofTyped (apk_info : ApkInfo) (analysis_data : AnalysisData)
    (analysis_date : String) :
    composeReportDyn (ApkInfoDyn.ofTyped apk_info) analysis_data analysis_date =
      some (composeReport apk_info analysis_data analysis_date) := by
  obtain ⟨name, path, size, lm⟩ := apk_info
  cases name with
  | none => rfl
  | some s => rfl

/-- C10 counterexample: the inputs `apk_info = {'name': 1}` and
`analysis_data = {}` satisfy the claim's stated precondition (which only
constrains `Permissions` and `Intents`), yet `(1).lower()` raises
`AttributeError` at report_compose.py line 103 and `compose_report` returns
the `{}` sentinel (`none`), not a fully-populated report. -/
theorem claim_C10_counterexample :
    composeReportDyn ⟨some (PyVal.int 1), none, none, none⟩ ⟨none, none⟩ "" = none := by
  rfl

/-- C10 (amended): under the stated precondition strengthened with "the
`name` value of `apk_info`, when present, is a string", `compose_report`
never reaches the exception branch: it returns a fully-populated report —
never the `{}` sentinel — with non-empty recommendations for every input,
and for fully empty input dictionaries it yields the defaults: name
"Unknown", zero permissions, tier "низкий", and the single reassuring
recommendation. -/
theorem claim_C10_compose_total (apk_info : ApkInfo) (analysis_data : AnalysisData)
    (analysis_date : String) :
    composeReportDyn (ApkInfoDyn.ofTyped apk_info) analysis_data analysis_date =
      some (composeReport apk_info analysis_data analysis_date) ∧
    (composeReport apk_info analysis_data analysis_date).recommendations ≠ [] ∧
    (composeReport ⟨none, none, none, none⟩ ⟨none, none⟩ analysis_date).metadata.apk_name =
      "Unknown" ∧
    (composeReport ⟨none, none, none, none⟩ ⟨none, none⟩ analysis_date).permissions.total = 0 ∧
    (composeReport ⟨none, none, none, none⟩ ⟨none, none⟩
        analysis_date).security_assessment.risk_level = "низкий" ∧
    (composeReport ⟨none, none, none, none⟩ ⟨none, none⟩ analysis_date).recommendations =
      ["Проверка через Angroguard не обнаружила угроз"] := by
  have hrl : (assessSecurity ⟨none, none, none, none⟩ ⟨none, none⟩).risk_level = "низкий" := by
    rw [assessSecurity_risk_level_nat]
    decide
  refine ⟨composeReportDyn_ofTyped apk_info analysis_data analysis_date,
    generateRecommendations_ne_nil _, rfl, rfl, hrl, ?_⟩
  show generateRecommendations _ = _
  simp only [generateRecommendations]
  rw [hrl]
  norm_num
  decide

/-- C9: the presentation-level quick tier tallies one per suspicious word
occurring in the lower-cased name plus one half per dangerous-permission
table entry contained (case-insensitively) in at least one permission, and
returns "высокая" iff the tally is at least 2, "средняя" iff it is in
[1, 2), and "низкая" iff it is below 1. -/
theorem claim_C9_quick_tier (apk_name : String) (permissions : Option (List String)) :
    ((determineMaliciousness apk_name permissions).1 = "высокая" ↔
      (quickWordHits apk_name : ℚ) + (quickDangerousCount permissions : ℚ) * (1 / 2) ≥ 2) ∧
    ((determineMaliciousness apk_name permissions).1 = "средняя" ↔
      ¬((quickWordHits apk_name : ℚ) + (quickDangerousCount permissions : ℚ) * (1 / 2) ≥ 2) ∧
      (quickWordHits apk_name : ℚ) + (quickDangerousCount permissions : ℚ) * (1 / 2) ≥ 1) ∧
    ((determineMaliciousness apk_name permissions).1 = "низкая" ↔
      ¬((quickWordHits apk_name : ℚ) + (quickDangerousCount permissions : ℚ) * (1 / 2) ≥ 2) ∧
      ¬((quickWordHits apk_name : ℚ) + (quickDangerousCount permissions : ℚ) * (1 / 2) ≥ 1)) := by
  simp only [determineMaliciousness]
  split_ifs with h1 h2
  · exact ⟨iff_of_true rfl h1,
      iff_of_false (by decide) (fun hc => hc.1 h1),
      iff_of_false (by decide) (fun hc => hc.1 h1)⟩
  · exact ⟨iff_of_false (by decide) h1,
      iff_of_true rfl ⟨h1, h2⟩,
      iff_of_false (by decide) (fun hc => hc.2 h2)⟩
  · exact ⟨iff_of_false (by decide) h1,
      iff_of_false (by decide) (fun hc => h2 hc.2),
      iff_of_true rfl ⟨h1, h2⟩⟩

/-- Key membership after a Python-style dictionary insertion. -/
theorem dictInsert_mem_keys (d : List (String × String)) (k v f : String) :
    f ∈ (dictInsert d k v).map Prod.fst ↔ f ∈ d.map Prod.fst ∨ f = k := by
  induction d with
  | nil => simp [dictInsert]
  | cons p rest ih =>
      obtain ⟨k1, v1⟩ := p
      simp only [dictInsert]
      split_ifs with h
      · subst h
        simp
        tauto
      · simp only [List.map_cons, List.mem_cons, ih]
        tauto

/-- A Python-style dictionary insertion preserves a pointwise property that
the inserted pair satisfies. -/
theorem dictInsert_forall {P : String × String → Prop} (d : List (String × String))
    (k v : String) (hd : d.Forall P) (hkv : P (k, v)) : (dictInsert d k v).Forall P := by
  induction d with
  | nil => simpa [dictInsert]
  | cons p rest ih =>
      obtain ⟨k1, v1⟩ := p
      rw [List.forall_cons] at hd
      simp only [dictInsert]
      split_ifs with h
      · exact (List.forall_cons _ _ _).mpr ⟨hkv, hd.2⟩
      · exact (List.forall_cons _ _ _).mpr ⟨hd.1, ih hd.2⟩

/-- Key membership across the format loop of `save_report`: a format ends up
as a key iff it already was one or it is a supported requested format. -/
theorem saveReportLoop_mem_keys (reports_dir base_filename f : String) :
    ∀ (fmts : List String) (saved_files : List (String × String)),
      f ∈ (saveReportLoop reports_dir base_filename fmts saved_files).map Prod.fst ↔
        f ∈ saved_files.map Prod.fst ∨ (f ∈ fmts ∧ f ∈ supported_formats) := by
  intro fmts
  induction fmts with
  | nil => simp [saveReportLoop]
  | cons fmt rest ih =>
      intro saved_files
      simp only [saveReportLoop]
      split_ifs with h
      · rw [ih, dictInsert_mem_keys]
        simp only [List.mem_cons]
        constructor
        · rintro ((hs | rfl) | hr)
          · exact Or.inl hs
          · exact Or.inr ⟨Or.inl rfl, h⟩
          · exact Or.inr ⟨Or.inr hr.1, hr.2⟩
        · rintro (hs | ⟨rfl | hr, hsup⟩)
          · exact Or.inl (Or.inl hs)
          · exact Or.inl (Or.inr rfl)
          · exact Or.inr ⟨hr, hsup⟩
      · rw [ih]
        simp only [List.mem_cons]
        constructor
        · rintro (hs | hr)
          · exact Or.inl hs
          · exact Or.inr ⟨Or.inr hr.1, hr.2⟩
        · rintro (hs | ⟨rfl | hr, hsup⟩)
          · exact Or.inl hs
          · exact absurd hsup h
          · exact Or.inr ⟨hr, hsup⟩

/-- Every pair recorded by the format loop maps the format to the one shared
`reports_dir/base_filename.fmt` path. -/
theorem saveReportLoop_forall (reports_dir base_filename : String) :
    ∀ (fmts : List String) (saved_files : List (String × String)),
      saved_files.Forall
        (fun p => p.2 = reports_dir ++ "/" ++ base_filename ++ "." ++ p.1) →
      (saveReportLoop reports_dir base_filename fmts saved_files).Forall
        (fun p => p.2 = reports_dir ++ "/" ++ base_filename ++ "." ++ p.1) := by
  intro fmts
  induction fmts with
  | nil => intro saved_files h; simpa [saveReportLoop]
  | cons fmt rest ih =>
      intro saved_files h
      simp only [saveReportLoop]
      split_ifs with hf
      · exact ih _ (dictInsert_forall _ _ _ h rfl)
      · exact ih _ h

/-- C7: `save_report` skips unsupported formats without aborting the batch:
the returned mapping's keys are exactly the requested formats that are
supported, every recorded path is `reports_dir/{apk_name}_{timestamp}.{fmt}`
with the one timestamp of the call shared by all formats, and requesting
`["json", "xml"]` yields a mapping holding only the json entry. -/
theorem claim_C7_save_report (reports_dir : String) (report : Report) (apk_name : String)
    (fmts : List String) (timestamp : String) :
    (∀ f : String,
      f ∈ (saveReport reports_dir report apk_name (some fmts) timestamp).map Prod.fst ↔
        f ∈ fmts ∧ f ∈ supported_formats) ∧
    (saveReport reports_dir report apk_name (some fmts) timestamp).Forall
      (fun p => p.2 = reports_dir ++ "/" ++ (apk_name ++ "_" ++ timestamp) ++ "." ++ p.1) ∧
    saveReport "reports" report "Test" (some ["json", "xml"]) "20240101_000000" =
      [("json", "reports/Test_20240101_000000.json")] := by
  refine ⟨fun f => ?_, ?_, ?_⟩
  · rw [show saveReport reports_dir report apk_name (some fmts) timestamp =
      saveReportLoop reports_dir (apk_name ++ "_" ++ timestamp) fmts [] from rfl]
    rw [saveReportLoop_mem_keys]
    simp
  · rw [show saveReport reports_dir report apk_name (some fmts) timestamp =
      saveReportLoop reports_dir (apk_name ++ "_" ++ timestamp) fmts [] from rfl]
    refine saveReportLoop_forall _ _ _ _ ?_
    simp [List.Forall]
  · rfl

/-- A report whose `permissions.dangerous` field disagrees with the
`dangerous_permissions` rule table: the list contains CAMERA but the
`dangerous` field is empty. -/
def reportWithMismatchedDangerous : Report :=
  { metadata :=
      { apk_name := "app.apk", apk_path := "", file_size := 0, last_modified := ""
        analysis_date := "", report_version := "1.0" }
    permissions := { total := 1, list := ["android.permission.CAMERA"], dangerous := [] }
    intents := []
    security_assessment :=
      { risk_level := "низкий", risk_color := "GREEN", suspicious_score := 0
        dangerous_permissions_count := 0, warnings := [] }
    recommendations := []
    statistics :=
      { total_permissions := 1, dangerous_permissions := 0, activities := 0
        suspicious_score := 0 } }

/-- C8 counterexample: on a report whose `dangerous` field disagrees with
the rule table, the hypertext serializer marks CAMERA as dangerous although
the report's `permissions.dangerous` is empty — the marked set is
re-derived from the table, not read from the report. -/
theorem claim_C8_counterexample :
    htmlMarkedDangerous reportWithMismatchedDangerous = ["android.permission.CAMERA"] ∧
    reportWithMismatchedDangerous.permissions.dangerous = [] ∧
    htmlMarkedDangerous reportWithMismatchedDangerous ≠
      reportWithMismatchedDangerous.permissions.dangerous := by
  refine ⟨by decide, rfl, by decide⟩

/-- C8 (amended): the hypertext serializer re-derives the dangerous marking
from the `dangerous_permissions` table — it marks exactly the entries of
`permissions.list` that case-insensitively contain a table entry — which
coincides with the report's `permissions.dangerous` field on every report
actually produced by `compose_report`, but follows the table (not the
field) on reports whose `dangerous` field disagrees with it. -/
theorem claim_C8_html_marking (report : Report) (apk_info : ApkInfo)
    (analysis_data : AnalysisData) (analysis_date : String) :
    htmlMarkedDangerous report = report.permissions.list.filter isDangerousPerm ∧
    htmlMarkedDangerous (composeReport apk_info analysis_data analysis_date) =
      (composeReport apk_info analysis_data analysis_date).permissions.dangerous := by
  constructor
  · rfl
  · show (analysis_data.permissions.getD []).filter htmlIsDangerous =
      extractDangerousPermissions (analysis_data.permissions.getD [])
    rw [extractDangerousPermissions_eq_filter]
    rfl

end MobileGuard
